import Mathlib

/-!
# Verification of the SimpleStore reactive value container

Shallow embedding of `src/SimpleStore.ts` (`createSimpleStore`) and
`src/use.ts` (`_use`) from the `simple-store` repository, together with
proofs about the store's state machine: slot transitions between
empty/pending, holding a value, and holding an error; arbitration of
overlapping asynchronous updates by a monotone promise id; synchronous
notification passes; and the suspension bridge's outcome caching.

JavaScript runtime values are modelled by the inductive `JSVal`
(numbers as integers, strings, booleans, `null`, `undefined`, and
object / function references carrying an identity `Nat`).  The `None`
sentinel used for the store's `value` field is modelled by `Option`
(`none` = the `None` symbol).  Promises are identified by `Nat`
references allocated from a counter in the store state; the settlement
continuations installed by `setPromised` are modelled by the explicit
transition functions `onResolved` / `onRejected` applied at an
arbitrary later time with the promise id they captured.  Notification
passes (`listeners.forEach(_callListener)`) are counted by
`notifCount`, and calls of the deferred `resolve` capability are
recorded in `resolverLog`.
-/

namespace SimpleStore

/-- A JavaScript runtime value, as far as the store observes it:
numbers (modelled by integers), strings, booleans, `null`,
`undefined`, and object-like / function values identified by a
reference id (strict equality `===` on them is reference equality). -/
inductive JSVal where
  | num (n : Int)
  | str (s : String)
  | bool (b : Bool)
  | nullV
  | undef
  | obj (ref : Nat)
  | func (ref : Nat)
deriving DecidableEq, Repr

/-- JavaScript truthiness of a value (`if (x) ...`): `0`, the empty
string, `false`, `null` and `undefined` are falsy; object and function
references are truthy. -/
def truthy : JSVal → Bool
  | .num n => n != 0
  | .str s => s != ""
  | .bool b => b
  | .nullV => false
  | .undef => false
  | .obj _ => true
  | .func _ => true

/-- `typeof value === 'object' && value !== null`: the recommit
condition for structured values in `set`.  `null` has `typeof
'object'` but is excluded explicitly; functions have `typeof
'function'` and are not object-like. -/
def isObjectLike : Option JSVal → Bool
  | some (.obj _) => true
  | _ => false

/-- Strict equality `nextValue !== value` between a plain candidate
value and the store's current `value` field (`none` models the `None`
symbol, which no plain value equals). -/
def jsEqOpt (v : JSVal) : Option JSVal → Bool
  | some w => decide (v = w)
  | none => false

/-- The mutable state captured by one `createSimpleStore` closure.

* `value` — the slot (`none` models the `None` sentinel);
* `promiseError` — the `promiseError` variable (`JSVal.undef` when unset);
* `currentPromiseId` — the async-update arbitration counter;
* `promise` — reference of the promise currently stored in `promise`
  (`none` = `undefined`);
* `resolver` — when the deferred `resolve` capability is armed, the
  reference of the deferred promise it fulfills;
* `nextRef` — allocator for fresh promise references;
* `notifCount` — how many notification passes
  (`listeners.forEach(_callListener)`) have fired so far;
* `resolverLog` — the calls `resolver(v)` made so far, as pairs of the
  deferred promise's reference and the value passed. -/
structure Store where
  value : Option JSVal
  promiseError : JSVal
  currentPromiseId : Nat
  promise : Option Nat
  resolver : Option Nat
  nextRef : Nat
  notifCount : Nat
  resolverLog : List (Nat × JSVal)
deriving DecidableEq, Repr

/-- One synchronous notification pass: `listeners.forEach(_callListener)`. -/
def notify (s : Store) : Store :=
  { s with notifCount := s.notifCount + 1 }

/-- `setPromised(newPromise)` up to (but not including) the future
settlement of `newPromise`: clear the slot to `None`, clear the held
error and the deferred resolver, increment `currentPromiseId`
capturing `thisPromiseId`, and store the chained promise
(`newPromise.then(...).catch(...)`, a fresh promise object) in
`promise`.  Returns the updated store and the captured
`thisPromiseId`. -/
def setPromised (s : Store) : Store × Nat :=
  let thisId := s.currentPromiseId + 1
  ({ s with
      value := none
      promiseError := .undef
      resolver := none
      currentPromiseId := thisId
      promise := some s.nextRef
      nextRef := s.nextRef + 1 }, thisId)

/-- The success continuation installed by `setPromised`, fired when the
promise it chained onto fulfills with `resolvedValue`; `thisId` is the
`thisPromiseId` the continuation captured.  If the captured id is
still current: clear `promise`, clear `promiseError`, commit the slot,
and notify; otherwise the store state is untouched. -/
def onResolved (s : Store) (thisId : Nat) (resolvedValue : JSVal) : Store :=
  if s.currentPromiseId = thisId then
    notify { s with
      promise := none
      promiseError := .undef
      value := some resolvedValue }
  else s

/-- The failure continuation installed by `setPromised`, fired when the
promise it chained onto rejects with `reason`.  If the captured id is
still current: clear `promise`, store the reason verbatim in
`promiseError`, and notify; otherwise the store state is untouched
(the reason is still re-thrown outward, which does not affect the
store). -/
def onRejected (s : Store) (thisId : Nat) (reason : JSVal) : Store :=
  if s.currentPromiseId = thisId then
    notify { s with
      promise := none
      promiseError := reason }
  else s

/-- Outcome of a call to `get()`: a returned value, a thrown held
error, or a thrown promise reference (the suspension signal). -/
inductive GetResult where
  | ok (v : JSVal)
  | throwErr (e : JSVal)
  | throwPromise (ref : Nat)
deriving DecidableEq, Repr

/-- `get()`: throw `promiseError` if truthy; else throw the stored
promise if present; else if the slot is `None`, arm a deferred awaiter
(a fresh promise whose `resolve` is stored in `resolver`) and throw
it; else return the held value.  Returns the outcome together with the
(possibly updated) store. -/
def get (s : Store) : GetResult × Store :=
  if truthy s.promiseError then (.throwErr s.promiseError, s)
  else
    match s.promise with
    | some p => (.throwPromise p, s)
    | none =>
      match s.value with
      | some v => (.ok v, s)
      | none =>
        (.throwPromise s.nextRef,
          { s with
              promise := some s.nextRef
              resolver := some s.nextRef
              nextRef := s.nextRef + 1 })

/-- The effective next value obtained in `set` once a function
argument has been invoked: the `None` sentinel, a promise (an
in-flight asynchronous operation), or a plain value. -/
inductive NextVal where
  | noneSentinel
  | promiseArg
  | plain (v : JSVal)
deriving DecidableEq, Repr

/-- The argument of a call to `set`.  A function argument (anything
with `typeof 'function'`) is represented by `funcArg fid f`, carrying
the function's identity `fid` (as a `JSVal.func` reference) and its
semantics `f` mapping the value it is invoked with to the effective
next value it returns; every non-function argument is `next n`. -/
inductive SetArg where
  | next (n : NextVal)
  | funcArg (fid : Nat) (f : JSVal → NextVal)

/-- The tail of `set` acting on the effective next value `nextValue`:

* `None` sentinel: arm a fresh deferred promise (storing its `resolve`
  in `resolver`), set the slot to `None`, and notify — `promiseError`
  and `currentPromiseId` are untouched;
* a promise: `setPromised`;
* a plain value: commit iff it differs (`!==`) from the current value
  or the current value is object-like; on commit clear `promise` and
  `promiseError`, store the value, fulfill and clear the deferred
  resolver when armed, and notify; otherwise do nothing. -/
def setNextVal (s : Store) (n : NextVal) : Store :=
  match n with
  | .noneSentinel =>
    notify { s with
      promise := some s.nextRef
      resolver := some s.nextRef
      value := none
      nextRef := s.nextRef + 1 }
  | .promiseArg => (setPromised s).1
  | .plain v =>
    if !jsEqOpt v s.value || isObjectLike s.value then
      match s.resolver with
      | some d =>
        notify { s with
          promise := none
          resolver := none
          promiseError := .undef
          value := some v
          resolverLog := s.resolverLog ++ [(d, v)] }
      | none =>
        notify { s with
          promise := none
          promiseError := .undef
          value := some v }
    else s

/-- `set(newValue)`: a function argument is invoked with the current
value (`undefined` when the slot is `None`) to obtain the effective
next value; then `setNextVal` acts on it.  The function's own identity
`fid` is never consulted. -/
def set (s : Store) (a : SetArg) : Store :=
  match a with
  | .next n => setNextVal s n
  | .funcArg _ f =>
    setNextVal s (f (match s.value with | some v => v | none => .undef))

/-- The initial argument of `createSimpleStore`: a plain (non-thenable)
value — which may be a function or the `None` symbol — or a promise. -/
inductive InitArg where
  | val (v : JSVal)
  | noneSentinel
  | promiseArg
deriving Repr

/-- The store state right after the local variable initializers of
`createSimpleStore` run, before the initial value is installed. -/
def initialStore : Store :=
  { value := none
    promiseError := .undef
    currentPromiseId := 0
    promise := none
    resolver := none
    nextRef := 0
    notifCount := 0
    resolverLog := [] }

/-- `createSimpleStore(initialValue)`: a promise starts async-update
arbitration via `setPromised`; any other initial value (including the
`None` symbol and function values) is stored in the slot directly. -/
def createSimpleStore (init : InitArg) : Store :=
  match init with
  | .promiseArg => (setPromised initialStore).1
  | .val v => { initialStore with value := some v }
  | .noneSentinel => initialStore

/-- The read-only `value` accessor: literally `return value`, a total
read with no state change and no thrown error or suspension; `none` is
the `None` sentinel. -/
def valueAccessor (s : Store) : Option JSVal :=
  s.value

/-- Every store state reachable from a constructor call by any
interleaving of `get`, `set`, and firings of the settlement
continuations installed by `setPromised` (with any captured id and any
outcome). -/
inductive Reachable : Store → Prop where
  | init (a : InitArg) : Reachable (createSimpleStore a)
  | stepGet {s : Store} : Reachable s → Reachable (get s).2
  | stepSet {s : Store} (a : SetArg) : Reachable s → Reachable (set s a)
  | stepResolve {s : Store} (id : Nat) (v : JSVal) :
      Reachable s → Reachable (onResolved s id v)
  | stepReject {s : Store} (id : Nat) (e : JSVal) :
      Reachable s → Reachable (onRejected s id e)

/-! ## The suspension bridge (`_use` in `src/use.ts`) -/

/-- The `status` expando field that `_use` reads and writes on a
promise object: absent on a fresh promise, then `'pending'`,
`'fulfilled'` (with the cached `value`), or `'rejected'` (with the
cached `reason`). -/
inductive UseStatus where
  | unset
  | pending
  | fulfilledS (v : JSVal)
  | rejectedS (r : JSVal)
deriving DecidableEq, Repr

/-- A promise handle as the suspension bridge sees it: its `status`
expando state plus a count of how many times `_use` has attached its
caching continuations (`promise.then(...)`) to it. -/
structure UseOp where
  status : UseStatus
  registrations : Nat
deriving DecidableEq, Repr

/-- Outcome of a call to `_use(promise)`: a returned cached result, a
thrown cached rejection reason, or the promise itself thrown as the
suspension signal. -/
inductive UseResult where
  | ret (v : JSVal)
  | throwReason (r : JSVal)
  | throwOp
deriving DecidableEq, Repr

/-- `_use(promise)`: return the cached result if `status` is
`'fulfilled'`; throw the cached reason if `'rejected'`; throw the
promise if `'pending'`; otherwise (first observer) mark it
`'pending'`, attach the caching continuations, and throw the
promise. -/
def useBridge (op : UseOp) : UseResult × UseOp :=
  match op.status with
  | .fulfilledS v => (.ret v, op)
  | .rejectedS r => (.throwReason r, op)
  | .pending => (.throwOp, op)
  | .unset =>
    (.throwOp, { status := .pending, registrations := op.registrations + 1 })

/-- `n` successive probes of the same promise handle through `_use`,
discarding the outcomes. -/
def useIter : Nat → UseOp → UseOp
  | 0, op => op
  | n + 1, op => useIter n (useBridge op).2

/-- Fulfillment of the underlying promise with `v`: the continuations
attached by `_use` (if any were registered) cache the outcome by
setting `status` to `'fulfilled'` with the result. -/
def settleUseOk (op : UseOp) (v : JSVal) : UseOp :=
  if op.registrations = 0 then op
  else { op with status := .fulfilledS v }

/-- Rejection of the underlying promise with `r`: the continuations
attached by `_use` (if any were registered) cache the outcome by
setting `status` to `'rejected'` with the reason. -/
def settleUseErr (op : UseOp) (r : JSVal) : UseOp :=
  if op.registrations = 0 then op
  else { op with status := .rejectedS r }

/-! ## Theorems -/

/-- C1: starting async update A (`setPromised`, reached from `set`
with a promise and from construction) and then async update B before A
settles: when A's continuation later fires (fulfilled or rejected) the
store state is exactly unchanged — so zero notification passes fire
for A — and when B's continuation fires the slot commits to B's
result, the pending operation and error are cleared, and exactly one
notification pass fires. -/
theorem claim1_last_started_async_update_wins (s : Store) (vA vB eA : JSVal) :
    onResolved (setPromised (setPromised s).1).1 (setPromised s).2 vA =
      (setPromised (setPromised s).1).1 ∧
    onRejected (setPromised (setPromised s).1).1 (setPromised s).2 eA =
      (setPromised (setPromised s).1).1 ∧
    (onResolved (setPromised (setPromised s).1).1
        (setPromised (setPromised s).1).2 vB).value = some vB ∧
    (onResolved (setPromised (setPromised s).1).1
        (setPromised (setPromised s).1).2 vB).promise = none ∧
    (onResolved (setPromised (setPromised s).1).1
        (setPromised (setPromised s).1).2 vB).promiseError = JSVal.undef ∧
    (onResolved (setPromised (setPromised s).1).1
        (setPromised (setPromised s).1).2 vB).notifCount =
      (setPromised (setPromised s).1).1.notifCount + 1 ∧
    set s (SetArg.next NextVal.promiseArg) = (setPromised s).1 ∧
    createSimpleStore InitArg.promiseArg = (setPromised initialStore).1 := by
  simp [setPromised, onResolved, onRejected, set, setNextVal,
    createSimpleStore, notify]

/-- C9: arming an async update P and then calling `set(None)` before P
settles leaves `currentPromiseId` unchanged, so P's success
continuation still commits its result to the slot, discards the
deferred promise armed by the `None` set from the `promise` field, and
fires one notification pass. -/
theorem claim9_set_none_does_not_supersede_async (s : Store) (v : JSVal) :
    (set (setPromised s).1 (SetArg.next NextVal.noneSentinel)).currentPromiseId =
      (setPromised s).1.currentPromiseId ∧
    (set (setPromised s).1 (SetArg.next NextVal.noneSentinel)).promise =
      some (setPromised s).1.nextRef ∧
    (onResolved (set (setPromised s).1 (SetArg.next NextVal.noneSentinel))
        (setPromised s).2 v).value = some v ∧
    (onResolved (set (setPromised s).1 (SetArg.next NextVal.noneSentinel))
        (setPromised s).2 v).promise = none ∧
    (onResolved (set (setPromised s).1 (SetArg.next NextVal.noneSentinel))
        (setPromised s).2 v).notifCount =
      (set (setPromised s).1 (SetArg.next NextVal.noneSentinel)).notifCount + 1 := by
  simp [setPromised, onResolved, set, setNextVal, notify]

/-- C4: `set` with a plain value `v`: when `v` strictly equals the
currently held value and that value is not object-like, the store is
exactly unchanged (zero notifications); when `v` differs or the held
value is object-like, `v` is committed, the error and pending
operation are cleared, and exactly one notification pass fires. -/
theorem claim4_plain_value_commit_policy (s : Store) (v : JSVal) :
    (jsEqOpt v s.value = true → isObjectLike s.value = false →
      set s (SetArg.next (NextVal.plain v)) = s) ∧
    (jsEqOpt v s.value = false ∨ isObjectLike s.value = true →
      (set s (SetArg.next (NextVal.plain v))).value = some v ∧
      (set s (SetArg.next (NextVal.plain v))).promiseError = JSVal.undef ∧
      (set s (SetArg.next (NextVal.plain v))).promise = none ∧
      (set s (SetArg.next (NextVal.plain v))).notifCount = s.notifCount + 1) := by
  constructor
  · intro heq hobj
    simp [set, setNextVal, heq, hobj]
  · intro h
    have hcond : (!jsEqOpt v s.value || isObjectLike s.value) = true := by
      rcases h with h | h <;> simp [h]
    cases hres : s.resolver <;>
      simp [set, setNextVal, hcond, hres, notify]

/-- Witness for C4 at a store holding the number 0: re-setting 0 is a
no-op, setting 1 commits it. -/
theorem claim4_plain_value_commit_policy_witness :
    set (createSimpleStore (InitArg.val (JSVal.num 0)))
        (SetArg.next (NextVal.plain (JSVal.num 0))) =
      createSimpleStore (InitArg.val (JSVal.num 0)) ∧
    (set (createSimpleStore (InitArg.val (JSVal.num 0)))
        (SetArg.next (NextVal.plain (JSVal.num 1)))).value = some (JSVal.num 1) :=
  ⟨(claim4_plain_value_commit_policy _ _).1 (by decide) (by decide),
   ((claim4_plain_value_commit_policy _ _).2 (Or.inl (by decide))).1⟩

/-- C10: a function argument to `set` is always invoked as an updater
with the current value (`undefined` when the slot is `None`) and only
its result is acted on; the store after `set` does not depend on the
function's own identity, so the function itself is never stored
directly — yet a (non-thenable) function passed to the constructor is
stored as the value. -/
theorem claim10_function_arg_is_updater (s : Store) (fid fid2 : Nat)
    (f : JSVal → NextVal) :
    set s (SetArg.funcArg fid f) =
      setNextVal s (f (match s.value with | some w => w | none => JSVal.undef)) ∧
    (s.value = none → set s (SetArg.funcArg fid f) = setNextVal s (f JSVal.undef)) ∧
    set s (SetArg.funcArg fid f) = set s (SetArg.funcArg fid2 f) ∧
    (createSimpleStore (InitArg.val (JSVal.func fid))).value =
      some (JSVal.func fid) := by
  refine ⟨rfl, ?_, rfl, rfl⟩
  intro h
  simp [set, h]

/-- Witness for C10: an incrementing updater applied to a store
holding 4 commits 5, and the same updater on an empty slot sees
`undefined`. -/
theorem claim10_function_arg_is_updater_witness :
    set (createSimpleStore (InitArg.val (JSVal.num 4)))
        (SetArg.funcArg 0 (fun w =>
          match w with
          | .num n => .plain (.num (n + 1))
          | _ => .plain .undef)) =
      setNextVal (createSimpleStore (InitArg.val (JSVal.num 4)))
        (NextVal.plain (JSVal.num 5)) ∧
    set (createSimpleStore InitArg.noneSentinel)
        (SetArg.funcArg 0 (fun _ => NextVal.plain (JSVal.num 9))) =
      setNextVal (createSimpleStore InitArg.noneSentinel)
        (NextVal.plain (JSVal.num 9)) :=
  ⟨(claim10_function_arg_is_updater _ 0 0 _).1,
   (claim10_function_arg_is_updater _ 0 0 _).2.1 rfl⟩

/-- C8: the read-only `value` accessor is a total read that never
throws and never suspends: it returns the held value, the `None`
sentinel when the slot is empty, and its result is independent of the
held error and of any pending operation. -/
theorem claim8_value_accessor_never_fails (s : Store) :
    (∀ v, s.value = some v → valueAccessor s = some v) ∧
    (s.value = none → valueAccessor s = none) ∧
    (∀ e p, valueAccessor { s with promiseError := e, promise := p } =
      valueAccessor s) := by
  refine ⟨?_, ?_, ?_⟩ <;> intros <;> simp_all [valueAccessor]

/-- Witness for C8 on a store holding 3 and on an empty store. -/
theorem claim8_value_accessor_never_fails_witness :
    valueAccessor (createSimpleStore (InitArg.val (JSVal.num 3))) =
      some (JSVal.num 3) ∧
    valueAccessor (createSimpleStore InitArg.noneSentinel) = none :=
  ⟨(claim8_value_accessor_never_fails _).1 _ rfl,
   (claim8_value_accessor_never_fails _).2.1 rfl⟩

/-- C6: on a store whose slot is `None` with no in-flight operation
and no held error, `get()` arms a deferred awaiter: it allocates a
fresh promise, stores it and its resolve capability, and throws it;
every further `get()` before settlement throws the identical promise
without changing state; a later `set` with a plain value fulfills the
deferred promise with that value, commits it, and `get()` then
returns it. -/
theorem claim6_get_arms_deferred_awaiter (s : Store) (v : JSVal)
    (hval : s.value = none) (herr : s.promiseError = JSVal.undef)
    (hp : s.promise = none) :
    (get s).1 = GetResult.throwPromise s.nextRef ∧
    (get s).2.promise = some s.nextRef ∧
    (get s).2.resolver = some s.nextRef ∧
    (get (get s).2).1 = GetResult.throwPromise s.nextRef ∧
    (get (get s).2).2 = (get s).2 ∧
    (set (get s).2 (SetArg.next (NextVal.plain v))).value = some v ∧
    (set (get s).2 (SetArg.next (NextVal.plain v))).resolverLog =
      s.resolverLog ++ [(s.nextRef, v)] ∧
    (get (set (get s).2 (SetArg.next (NextVal.plain v)))).1 =
      GetResult.ok v := by
  simp [get, set, setNextVal, herr, hval, hp, truthy, jsEqOpt, notify]

/-- Witness for C6 on a store constructed with the `None` symbol,
later set to the number 5. -/
theorem claim6_get_arms_deferred_awaiter_witness :
    (get (createSimpleStore InitArg.noneSentinel)).1 =
      GetResult.throwPromise 0 ∧
    (get (set (get (createSimpleStore InitArg.noneSentinel)).2
        (SetArg.next (NextVal.plain (JSVal.num 5))))).1 =
      GetResult.ok (JSVal.num 5) :=
  ⟨(claim6_get_arms_deferred_awaiter _ (JSVal.num 5) rfl rfl rfl).1,
   (claim6_get_arms_deferred_awaiter _ (JSVal.num 5) rfl rfl rfl).2.2.2.2.2.2.2⟩

/-- C2 as stated is false: after an async update rejects with the
truthy reason `7`, `set(None)` leaves `promiseError` in place, so the
next `get()` surfaces the held error `7`, not an in-flight
operation. -/
theorem claim2_counterexample :
    (get (set (onRejected (createSimpleStore InitArg.promiseArg) 1 (JSVal.num 7))
        (SetArg.next NextVal.noneSentinel))).1 =
      GetResult.throwErr (JSVal.num 7) := by decide

/-- C2 amended: `set(None)` always fires exactly one notification pass
and arms a fresh deferred promise, and when the store holds no truthy
error the next `get()` surfaces that in-flight operation; but a truthy
held error is not cleared and the next `get()` surfaces it instead. -/
theorem claim2_set_none_notifies_once (s : Store) :
    (set s (SetArg.next NextVal.noneSentinel)).notifCount = s.notifCount + 1 ∧
    (set s (SetArg.next NextVal.noneSentinel)).promise = some s.nextRef ∧
    (truthy s.promiseError = false →
      (get (set s (SetArg.next NextVal.noneSentinel))).1 =
        GetResult.throwPromise s.nextRef) ∧
    (truthy s.promiseError = true →
      (get (set s (SetArg.next NextVal.noneSentinel))).1 =
        GetResult.throwErr s.promiseError) := by
  refine ⟨by simp [set, setNextVal, notify], by simp [set, setNextVal, notify], ?_, ?_⟩ <;>
    intro h <;> simp [set, setNextVal, get, notify, h]

/-- Witness for C2 (amended) on a fresh numeric store and on a store
holding the rejection reason `7`. -/
theorem claim2_set_none_notifies_once_witness :
    (get (set (createSimpleStore (InitArg.val (JSVal.num 0)))
        (SetArg.next NextVal.noneSentinel))).1 = GetResult.throwPromise 0 ∧
    (get (set (onRejected (createSimpleStore InitArg.promiseArg) 1 (JSVal.num 7))
        (SetArg.next NextVal.noneSentinel))).1 =
      GetResult.throwErr (JSVal.num 7) :=
  ⟨(claim2_set_none_notifies_once _).2.2.1 (by decide),
   (claim2_set_none_notifies_once _).2.2.2 (by decide)⟩

/-- C3 as stated is false for falsy rejection reasons: after the
current async update rejects with the number `0`, the reason is stored
verbatim but `get()` does not surface it — the truthiness check `if
(promiseError)` fails, so `get()` arms and throws a deferred promise
instead. -/
theorem claim3_counterexample :
    (onRejected (createSimpleStore InitArg.promiseArg) 1 (JSVal.num 0)).promiseError =
      JSVal.num 0 ∧
    (get (onRejected (createSimpleStore InitArg.promiseArg) 1 (JSVal.num 0))).1 =
      GetResult.throwPromise 1 ∧
    (get (onRejected (createSimpleStore InitArg.promiseArg) 1 (JSVal.num 0))).1 ≠
      GetResult.throwErr (JSVal.num 0) := by decide

/-- C3 amended: when the current async update rejects with a truthy
reason `e`, the reason is stored verbatim and every subsequent `get()`
surfaces exactly `e` without changing state, until a plain-value `set`
commits (clearing the error) or a new async update starts (clearing
the error). -/
theorem claim3_truthy_rejection_surfaced_verbatim (s : Store) (e v : JSVal)
    (he : truthy e = true) :
    (onRejected (setPromised s).1 (setPromised s).2 e).promiseError = e ∧
    (get (onRejected (setPromised s).1 (setPromised s).2 e)).1 =
      GetResult.throwErr e ∧
    (get (onRejected (setPromised s).1 (setPromised s).2 e)).2 =
      onRejected (setPromised s).1 (setPromised s).2 e ∧
    (set (onRejected (setPromised s).1 (setPromised s).2 e)
        (SetArg.next (NextVal.plain v))).promiseError = JSVal.undef ∧
    (set (onRejected (setPromised s).1 (setPromised s).2 e)
        (SetArg.next (NextVal.plain v))).value = some v ∧
    (setPromised (onRejected (setPromised s).1 (setPromised s).2 e)).1.promiseError =
      JSVal.undef := by
  simp [setPromised, onRejected, get, set, setNextVal, jsEqOpt, notify, he]

/-- Witness for C3 (amended) with the truthy reason `1`. -/
theorem claim3_truthy_rejection_surfaced_verbatim_witness :
    (get (onRejected (setPromised (createSimpleStore InitArg.noneSentinel)).1
        (setPromised (createSimpleStore InitArg.noneSentinel)).2 (JSVal.num 1))).1 =
      GetResult.throwErr (JSVal.num 1) :=
  (claim3_truthy_rejection_surfaced_verbatim _ (JSVal.num 1) (JSVal.num 2)
    (by decide)).2.1

/-- A probe of a promise handle whose `status` is already set leaves
the handle (in particular its registration count) unchanged. -/
theorem useBridge_stable (op : UseOp) (h : op.status ≠ UseStatus.unset) :
    (useBridge op).2 = op := by
  rcases op with ⟨st, k⟩
  cases st <;> simp_all [useBridge]

/-- Iterated probes of a handle whose `status` is already set are a
no-op. -/
theorem useIter_stable (n : Nat) (op : UseOp) (h : op.status ≠ UseStatus.unset) :
    useIter n op = op := by
  induction n with
  | zero => rfl
  | succ n ih => rw [useIter, useBridge_stable op h, ih]

/-- C7: the suspension bridge returns a cached fulfilled result,
throws a cached rejection reason, throws the handle itself when it is
already marked pending, and otherwise (first observer) marks it
pending, registers the caching continuations once, and throws the
handle; hence any number of probes registers the continuations at most
once, and once a registered handle's promise settles the cached
outcome is what later probes observe. -/
theorem claim7_use_bridge_caches_outcomes (op : UseOp) (v r : JSVal) (n : Nat) :
    (op.status = UseStatus.fulfilledS v → useBridge op = (UseResult.ret v, op)) ∧
    (op.status = UseStatus.rejectedS r →
      useBridge op = (UseResult.throwReason r, op)) ∧
    (op.status = UseStatus.pending → useBridge op = (UseResult.throwOp, op)) ∧
    (op.status = UseStatus.unset →
      useBridge op = (UseResult.throwOp,
        { status := UseStatus.pending, registrations := op.registrations + 1 }) ∧
      (settleUseOk (useBridge op).2 v).status = UseStatus.fulfilledS v ∧
      (settleUseErr (useBridge op).2 r).status = UseStatus.rejectedS r ∧
      (useBridge (settleUseOk (useBridge op).2 v)).1 = UseResult.ret v) ∧
    (useIter n op).registrations ≤ op.registrations + 1 := by
  rcases op with ⟨st, k⟩
  refine ⟨?_, ?_, ?_, ?_, ?_⟩
  · intro h; simp at h; subst h; simp [useBridge]
  · intro h; simp at h; subst h; simp [useBridge]
  · intro h; simp at h; subst h; simp [useBridge]
  · intro h; simp at h; subst h
    simp [useBridge, settleUseOk, settleUseErr]
  · cases n with
    | zero => simp [useIter]
    | succ n =>
      cases st with
      | unset =>
        rw [useIter, useIter_stable n _ (by simp [useBridge])]
        simp [useBridge]
      | pending =>
        rw [useIter, useBridge_stable _ (by simp), useIter_stable n _ (by simp)]
        simp
      | fulfilledS w =>
        rw [useIter, useBridge_stable _ (by simp), useIter_stable n _ (by simp)]
        simp
      | rejectedS w =>
        rw [useIter, useBridge_stable _ (by simp), useIter_stable n _ (by simp)]
        simp

/-- Witness for C7: a fresh handle probed three times registers the
continuations exactly once, and after fulfillment with `9` a probe
returns `9`. -/
theorem claim7_use_bridge_caches_outcomes_witness :
    useBridge { status := UseStatus.unset, registrations := 0 } =
      (UseResult.throwOp, { status := UseStatus.pending, registrations := 1 }) ∧
    (useIter 3 { status := UseStatus.unset, registrations := 0 }).registrations ≤ 1 ∧
    (useBridge (settleUseOk
        (useBridge { status := UseStatus.unset, registrations := 0 }).2
        (JSVal.num 9))).1 = UseResult.ret (JSVal.num 9) :=
  ⟨((claim7_use_bridge_caches_outcomes
      { status := UseStatus.unset, registrations := 0 }
      (JSVal.num 9) (JSVal.num 9) 3).2.2.2.1 rfl).1,
   (claim7_use_bridge_caches_outcomes
      { status := UseStatus.unset, registrations := 0 }
      (JSVal.num 9) (JSVal.num 9) 3).2.2.2.2,
   ((claim7_use_bridge_caches_outcomes
      { status := UseStatus.unset, registrations := 0 }
      (JSVal.num 9) (JSVal.num 9) 3).2.2.2.1 rfl).2.2.2⟩

/-- Auxiliary invariant step: `setNextVal` preserves "a stored promise
implies an empty slot". -/
theorem setNextVal_promise_value_none (s : Store) (n : NextVal)
    (ih : ∀ p, s.promise = some p → s.value = none) :
    ∀ p, (setNextVal s n).promise = some p → (setNextVal s n).value = none := by
  cases n with
  | noneSentinel => intro p _; simp [setNextVal, notify]
  | promiseArg => intro p _; simp [setNextVal, setPromised]
  | plain v =>
    intro p hp
    by_cases hc : (!jsEqOpt v s.value || isObjectLike s.value) = true
    · cases hres : s.resolver <;> simp [setNextVal, hc, hres, notify] at hp
    · have hs : setNextVal s (NextVal.plain v) = s := by
        simp [setNextVal]
        simp at hc
        simp [hc]
      rw [hs] at hp ⊢
      exact ih p hp

/-- In every reachable store state, a stored promise (a pending async
update or an armed deferred awaiter) implies the slot is `None`. -/
theorem reachable_promise_value_none {s : Store} (h : Reachable s) :
    ∀ p, s.promise = some p → s.value = none := by
  induction h with
  | init a =>
    cases a <;> intro p hp <;>
      simp_all [createSimpleStore, initialStore, setPromised]
  | stepGet h ih =>
    intro p hp
    rename_i s
    by_cases he : truthy s.promiseError = true
    · simp only [get, he, if_pos] at hp ⊢
      exact ih p hp
    · cases hpr : s.promise with
      | some q =>
        simp only [get, he, hpr, Bool.false_eq_true, if_false]
        exact ih q hpr
      | none =>
        cases hv : s.value with
        | some w =>
          simp_all [get]
        | none =>
          simp_all [get]
  | stepSet a h ih =>
    cases a with
    | next n => exact setNextVal_promise_value_none _ n ih
    | funcArg fid f => exact setNextVal_promise_value_none _ _ ih
  | stepResolve id v h ih =>
    intro p hp
    rename_i s
    by_cases hid : s.currentPromiseId = id
    · simp [onResolved, hid, notify] at hp
    · simp only [onResolved, hid, if_false] at hp ⊢
      exact ih p hp
  | stepReject id e h ih =>
    intro p hp
    rename_i s
    by_cases hid : s.currentPromiseId = id
    · simp [onRejected, hid, notify] at hp
    · simp only [onRejected, hid, if_false] at hp ⊢
      exact ih p hp

/-- C5: in every reachable state, while a pending operation is
recorded (`promise` set) the slot is `None` — `get()` cannot return
any value and the `value` accessor reads the `None` sentinel, so no
stale pre-update value is observable; moreover starting an async
update clears the slot to `None` immediately, and a settlement
continuation whose captured id is no longer current changes nothing
(only a permitted settlement or an explicit `set` can fill the
slot). -/
theorem claim5_no_stale_reads_while_pending (s : Store) (h : Reachable s) :
    (∀ p, s.promise = some p → s.value = none ∧ valueAccessor s = none ∧
      ∀ w, (get s).1 ≠ GetResult.ok w) ∧
    (setPromised s).1.value = none ∧
    (∀ id v, id ≠ s.currentPromiseId → onResolved s id v = s) ∧
    (∀ id e, id ≠ s.currentPromiseId → onRejected s id e = s) := by
  refine ⟨?_, rfl, ?_, ?_⟩
  · intro p hp
    have hv := reachable_promise_value_none h p hp
    refine ⟨hv, hv, ?_⟩
    intro w
    by_cases he : truthy s.promiseError = true <;>
      simp [get, he, hp]
  · intro id v hid
    simp [onResolved, Ne.symm hid]
  · intro id e hid
    simp [onRejected, Ne.symm hid]

/-- Witness for C5 at the store constructed from a promise: the slot
is `None` while the initial async update is pending, and a superseded
continuation is a no-op. -/
theorem claim5_no_stale_reads_while_pending_witness :
    (createSimpleStore InitArg.promiseArg).value = none ∧
    onResolved (createSimpleStore InitArg.promiseArg) 2 (JSVal.num 5) =
      createSimpleStore InitArg.promiseArg :=
  ⟨((claim5_no_stale_reads_while_pending (createSimpleStore InitArg.promiseArg)
      (Reachable.init InitArg.promiseArg)).1 0 (by decide)).1,
   (claim5_no_stale_reads_while_pending (createSimpleStore InitArg.promiseArg)
      (Reachable.init InitArg.promiseArg)).2.2.1 2 (JSVal.num 5) (by decide)⟩

end SimpleStore
